import Mathlib

/-!
Verification development for the bpmn-co collaborative BPMN editing server.

The definitions below are a shallow embedding of the Python source under
`src/server/`:

* `StateManager` and its operations embed
  `src/server/managers/state_manager.py`.  Python dicts are embedded as
  insertion-ordered association lists (`Dict`), with `dictGet` / `dictSet` /
  `dictDel` mirroring `d.get(k)` / `d[k] = v` / `del d[k]`.  Each store
  operation in the source is a `try` block whose guard failures `raise
  ValueError(...)` and whose trailing `except Exception` converts any raise
  into a `success=False` response dict; this structure is embedded as an
  inner `Except String` computation plus a catch-all wrapper, so the outer
  operation is a total function returning the mutated state and a response.
* The external well-formedness check `is_valid_xml` (which delegates to an
  XML library) and template file loading are out of scope per the design and
  are passed in as oracle functions.
* `ConnectionManager` embeds `src/server/managers/connections_manager.py`;
  websocket handles are embedded as opaque strings, and transport send
  failure is an oracle predicate on the target connection.
* The `handle_*` functions embed `src/server/event_handlers.py`.  Note that
  because the embedded store operations are total (the source catches every
  exception inside the store and returns a response dict), the handlers'
  `except ValueError` branches are unreachable and do not appear in the
  embedding.
* `JVal` embeds Python's JSON values; inbound frames are embedded
  post-parse (`Frame.notJson` for text rejected by `is_valid_json`).
-/

namespace BpmnCo

/-- Insertion-ordered string-to-string map, embedding a Python `dict[str, str]`. -/
abbrev Dict := List (String × String)

/-- `d.get(k)`: first value bound to `k`, if any. -/
def dictGet (d : Dict) (k : String) : Option String :=
  match d with
  | [] => none
  | p :: rest => if p.1 == k then some p.2 else dictGet rest k

/-- `d[k] = v`: replace in place if the key is present, else append at the end
(Python dicts preserve insertion order). -/
def dictSet (d : Dict) (k v : String) : Dict :=
  match d with
  | [] => [(k, v)]
  | p :: rest => if p.1 == k then (k, v) :: rest else p :: dictSet rest k v

/-- `del d[k]`: remove the binding of `k` (on a well-formed dict there is at
most one). -/
def dictDel (d : Dict) (k : String) : Dict :=
  d.filter (fun p => p.1 != k)

/-- Keys of the dict. -/
def dictKeys (d : Dict) : List String := d.map Prod.fst

/-! ## StateManager (src/server/managers/state_manager.py) -/

/-- `UpdateXMLResponse` TypedDict. -/
structure UpdateXMLResponse where
  success : Bool
  xml : Option String
  error : Option String
deriving Repr, DecidableEq

/-- `AddUserResponse` TypedDict (also the shape returned by `remove_user` and
`update_user_name`). -/
structure AddUserResponse where
  success : Bool
  users : Option Dict
  error : Option String
deriving Repr, DecidableEq

/-- `LockUnlockElementResponse` TypedDict. -/
structure LockUnlockElementResponse where
  success : Bool
  locked_elements : Option Dict
  error : Option String
deriving Repr, DecidableEq

/-- The mutable fields of `StateManager` (the `asyncio.Lock` serialises the
operations; each operation below is one atomic critical section). -/
structure StateManager where
  xml : String
  users : Dict
  locked_elements : Dict
deriving Repr, DecidableEq

/-- `get_full_state`: returns a dict with exactly the keys
`xml`, `users`, `locked_elements`. -/
def get_full_state (st : StateManager) : String × Dict × Dict :=
  (st.xml, st.users, st.locked_elements)

/-- Body of the `try` block of `update_xml`: guard raises
`ValueError("Invalid XML provided")`, otherwise sets `self.xml` and returns
the success response. `isValidXml` is the external well-formedness oracle. -/
def update_xml_inner (isValidXml : String → Bool) (st : StateManager)
    (new_xml : String) : Except String (StateManager × UpdateXMLResponse) :=
  if !isValidXml new_xml then Except.error "Invalid XML provided"
  else
    let st' := { st with xml := new_xml }
    Except.ok (st', { success := true, xml := some st'.xml, error := none })

/-- `update_xml` with its `except Exception` catch-all: a raise becomes a
`success=False` response and the state is left as it was. -/
def update_xml (isValidXml : String → Bool) (st : StateManager)
    (new_xml : String) : StateManager × UpdateXMLResponse :=
  match update_xml_inner isValidXml st new_xml with
  | Except.ok r => r
  | Except.error e => (st, { success := false, xml := none, error := some e })

/-- Body of the `try` block of `add_user`. -/
def add_user_inner (st : StateManager) (id name : String) :
    Except String (StateManager × AddUserResponse) :=
  if (dictGet st.users id).isSome then
    Except.error "User with this ID already exists"
  else
    let st' := { st with users := dictSet st.users id name }
    Except.ok (st', { success := true, users := some st'.users, error := none })

/-- `add_user` with its catch-all. -/
def add_user (st : StateManager) (id name : String) :
    StateManager × AddUserResponse :=
  match add_user_inner st id name with
  | Except.ok r => r
  | Except.error e => (st, { success := false, users := none, error := some e })

/-- Body of the `try` block of `remove_user`. -/
def remove_user_inner (st : StateManager) (id : String) :
    Except String (StateManager × AddUserResponse) :=
  if (dictGet st.users id).isNone then
    Except.error "User with this ID does not exist"
  else
    let st' := { st with users := dictDel st.users id }
    Except.ok (st', { success := true, users := some st'.users, error := none })

/-- `remove_user` with its catch-all: an unknown user becomes a
`success=False` response, never a raise escaping to the caller. -/
def remove_user (st : StateManager) (id : String) :
    StateManager × AddUserResponse :=
  match remove_user_inner st id with
  | Except.ok r => r
  | Except.error e => (st, { success := false, users := none, error := some e })

/-- Body of the `try` block of `update_user_name`. -/
def update_user_name_inner (st : StateManager) (id name : String) :
    Except String (StateManager × AddUserResponse) :=
  if (dictGet st.users id).isNone then
    Except.error "User with this ID does not exist"
  else
    let st' := { st with users := dictSet st.users id name }
    Except.ok (st', { success := true, users := some st'.users, error := none })

/-- `update_user_name` with its catch-all. -/
def update_user_name (st : StateManager) (id name : String) :
    StateManager × AddUserResponse :=
  match update_user_name_inner st id name with
  | Except.ok r => r
  | Except.error e => (st, { success := false, users := none, error := some e })

/-- Body of the `try` block of `lock_element`: the guard fires whenever the
element already has any owner, the requesting user included. -/
def lock_element_inner (st : StateManager) (user_id element_id : String) :
    Except String (StateManager × LockUnlockElementResponse) :=
  if (dictGet st.locked_elements element_id).isSome then
    Except.error "Element is already locked"
  else
    let st' := { st with locked_elements := dictSet st.locked_elements element_id user_id }
    Except.ok (st', { success := true, locked_elements := some st'.locked_elements, error := none })

/-- `lock_element` with its catch-all. -/
def lock_element (st : StateManager) (user_id element_id : String) :
    StateManager × LockUnlockElementResponse :=
  match lock_element_inner st user_id element_id with
  | Except.ok r => r
  | Except.error e =>
    (st, { success := false, locked_elements := none, error := some e })

/-- Body of the `try` block of `unlock_element`. -/
def unlock_element_inner (st : StateManager) (user_id element_id : String) :
    Except String (StateManager × LockUnlockElementResponse) :=
  if dictGet st.locked_elements element_id != some user_id then
    Except.error "Element is not locked by this user"
  else
    let st' := { st with locked_elements := dictDel st.locked_elements element_id }
    Except.ok (st', { success := true, locked_elements := some st'.locked_elements, error := none })

/-- `unlock_element` with its catch-all. -/
def unlock_element (st : StateManager) (user_id element_id : String) :
    StateManager × LockUnlockElementResponse :=
  match unlock_element_inner st user_id element_id with
  | Except.ok r => r
  | Except.error e =>
    (st, { success := false, locked_elements := none, error := some e })

/-- Body of the `try` block of `clear_locks_by_user`: collect the element ids
locked by the user, then delete them one by one. -/
def clear_locks_by_user_inner (st : StateManager) (user_id : String) :
    Except String (StateManager × LockUnlockElementResponse) :=
  if !(dictGet st.users user_id).isSome then
    Except.error "User with this ID does not exist"
  else
    let elements_to_unlock :=
      (st.locked_elements.filter (fun p => p.2 == user_id)).map Prod.fst
    let locked' := elements_to_unlock.foldl (fun acc e => dictDel acc e) st.locked_elements
    let st' := { st with locked_elements := locked' }
    Except.ok (st', { success := true, locked_elements := some st'.locked_elements, error := none })

/-- `clear_locks_by_user` with its catch-all. -/
def clear_locks_by_user (st : StateManager) (user_id : String) :
    StateManager × LockUnlockElementResponse :=
  match clear_locks_by_user_inner st user_id with
  | Except.ok r => r
  | Except.error e =>
    (st, { success := false, locked_elements := none, error := some e })

/-! ## Templates (src/server/templates/constants.py) -/

/-- The available template names (`TEMPLATES` keys). -/
def TEMPLATES : List String :=
  ["blank", "simple-process", "approval-workflow", "cross-functional"]

/-- `DEFAULT_TEMPLATE`. -/
def DEFAULT_TEMPLATE : String := "blank"

/-- `is_valid_template`. -/
def is_valid_template (template : String) : Bool :=
  TEMPLATES.contains template

/-- `get_template_or_default`: `if template and is_valid_template(template)`
(a `None` or empty template name is falsy). -/
def get_template_or_default (template : Option String) : String :=
  match template with
  | some t => if t != "" && is_valid_template t then t else DEFAULT_TEMPLATE
  | none => DEFAULT_TEMPLATE

/-! ## Diagram lifecycle (modelled from the spec) -/

/-- Modelled from the spec: the diagram lifecycle fields `template` and
`is_initialized` are referenced by `src/server/event_handlers.py` and by the
integration tests but are absent from the `StateManager` definition in
`src/server/managers/state_manager.py`; this structure extends the src state
with those fields. -/
structure DiagramSession where
  base : StateManager
  template : Option String
  is_initialized : Bool
deriving Repr, DecidableEq

/-- Modelled from the spec: the store operation `initialize(template)`
(invoked as `state_manager.initialize_diagram(template)` by
`src/server/event_handlers.py`, missing from
`src/server/managers/state_manager.py`): "fails with `AlreadyInitialized` if
the session's `initialized` flag is already true; otherwise loads the named
template (or default), sets `xml`, `template`, `initialized=true`".
`loadTemplate` is the external template-file loading
(`src/server/templates/loader.py` reads from disk, out of scope). -/
def init_diagram (loadTemplate : String → String) (sess : DiagramSession)
    (template : String) : Except String DiagramSession :=
  if sess.is_initialized then Except.error "AlreadyInitialized"
  else
    let t := get_template_or_default (some template)
    Except.ok { base := { sess.base with xml := loadTemplate t },
                template := some t, is_initialized := true }

/-- The diagram-initialisation step of `handle_initial_connection_event`
(src/server/event_handlers.py lines 34-40): `if not
state_manager.is_initialized:` attempt `initialize_diagram(template)`,
swallowing the already-initialised failure (race lost to another
connection).  The returned flag records whether the initialise operation was
invoked. -/
def initial_connection_diagram_step (loadTemplate : String → String)
    (sess : DiagramSession) (template : String) : DiagramSession × Bool :=
  if !sess.is_initialized then
    match init_diagram loadTemplate sess template with
    | Except.ok sess' => (sess', true)
    | Except.error _ => (sess, true)
  else (sess, false)

/-! ## JSON values and outgoing messages -/

/-- A Python JSON value (result of `json.loads` / argument of `json.dumps`). -/
inductive JVal where
  | jnull
  | jbool (b : Bool)
  | jnum (n : Int)
  | jstr (s : String)
  | jarr (items : List JVal)
  | jobj (fields : List (String × JVal))
deriving Repr

/-- `None`-or-string serialised into JSON. -/
def optStrToJVal : Option String → JVal
  | none => JVal.jnull
  | some s => JVal.jstr s

/-- A `dict[str, str]` serialised into JSON. -/
def dictToJVal (d : Dict) : JVal :=
  JVal.jobj (d.map (fun p => (p.1, JVal.jstr p.2)))

/-- An `UpdateXMLResponse` dict serialised into JSON. -/
def uxRespToJVal (r : UpdateXMLResponse) : JVal :=
  JVal.jobj [("success", JVal.jbool r.success), ("xml", optStrToJVal r.xml),
             ("error", optStrToJVal r.error)]

/-- An `AddUserResponse` dict serialised into JSON. -/
def auRespToJVal (r : AddUserResponse) : JVal :=
  JVal.jobj [("success", JVal.jbool r.success),
             ("users", match r.users with
                       | none => JVal.jnull
                       | some d => dictToJVal d),
             ("error", optStrToJVal r.error)]

/-- A `LockUnlockElementResponse` dict serialised into JSON. -/
def lockRespToJVal (r : LockUnlockElementResponse) : JVal :=
  JVal.jobj [("success", JVal.jbool r.success),
             ("locked_elements", match r.locked_elements with
                                 | none => JVal.jnull
                                 | some d => dictToJVal d),
             ("error", optStrToJVal r.error)]

/-- An outgoing send performed by a handler: either
`connection_manager.send_direct_message(target, payload)` or
`connection_manager.broadcast(payload, exclude)`. -/
inductive OutMsg where
  | direct (target : String) (payload : JVal)
  | broadcastExcl (exclude : Option String) (payload : JVal)
deriving Repr

/-- `{"type": "error", "message": message}`. -/
def errorPayload (message : String) : JVal :=
  JVal.jobj [("type", JVal.jstr "error"), ("message", JVal.jstr message)]

/-! ## Event handlers (src/server/event_handlers.py) -/

/-- `handle_xml_update_event`: call `state_manager.update_xml(message.xml)`
and broadcast `{"type": "xml_update", "xml": xml}` excluding the sender,
where `xml` names whatever `update_xml` returned.  The source wraps this in
`try ... except ValueError`, but `update_xml` returns a response dict and
never raises, so the `except` branch (which would send the error to the
sender instead) is unreachable, and the response dict itself — success or
failure — is serialised into the broadcast payload. -/
def handle_xml_update_event (isValidXml : String → Bool) (st : StateManager)
    (websocket : String) (message_xml : String) : StateManager × List OutMsg :=
  let r := update_xml isValidXml st message_xml
  (r.1, [OutMsg.broadcastExcl (some websocket)
          (JVal.jobj [("type", JVal.jstr "xml_update"), ("xml", uxRespToJVal r.2)])])

/-- `handle_user_name_update_event`: call `update_user_name` and broadcast
`{"type": "users_update", "users": users}` to all, `users` being the returned
response dict (same unreachable `except ValueError` as above). -/
def handle_user_name_update_event (st : StateManager)
    (_websocket user_id name : String) : StateManager × List OutMsg :=
  let r := update_user_name st user_id name
  (r.1, [OutMsg.broadcastExcl none
          (JVal.jobj [("type", JVal.jstr "users_update"), ("users", auRespToJVal r.2)])])

/-- `handle_element_select_event`: clear the sender's locks, then lock each
requested element in order (a per-element failure only yields a
`success=False` response, which the loop ignores), then broadcast the final
`state_manager.get_locked_elements()` to everyone including the sender. -/
def handle_element_select_event (st : StateManager) (user_id : String)
    (element_ids : List String) : StateManager × List OutMsg :=
  let st1 := (clear_locks_by_user st user_id).1
  let st2 := element_ids.foldl (fun acc e => (lock_element acc user_id e).1) st1
  (st2, [OutMsg.broadcastExcl none
          (JVal.jobj [("type", JVal.jstr "locked_elements_update"),
                      ("locked_elements", dictToJVal st2.locked_elements)])])

/-- `handle_element_deselect_event`: call `unlock_element` and broadcast the
returned response to everyone. -/
def handle_element_deselect_event (st : StateManager)
    (user_id element_id : String) : StateManager × List OutMsg :=
  let r := unlock_element st user_id element_id
  (r.1, [OutMsg.broadcastExcl none
          (JVal.jobj [("type", JVal.jstr "locked_elements_update"),
                      ("locked_elements", lockRespToJVal r.2)])])

/-- `handle_flush_user_data`: clear the user's locks, remove the user, then
broadcast `users_update` (over `get_users()`) and `locked_elements_update`
(over `get_locked_elements()`) to all.  With the response-dict store neither
call raises, so the broadcasts always run. -/
def handle_flush_user_data (st : StateManager) (user_id : String) :
    StateManager × List OutMsg :=
  let st1 := (clear_locks_by_user st user_id).1
  let st2 := (remove_user st1 user_id).1
  (st2, [OutMsg.broadcastExcl none
          (JVal.jobj [("type", JVal.jstr "users_update"),
                      ("users", dictToJVal st2.users)]),
         OutMsg.broadcastExcl none
          (JVal.jobj [("type", JVal.jstr "locked_elements_update"),
                      ("locked_elements", dictToJVal st2.locked_elements)])])

/-- `handle_initial_connection_event` (success path): add the user with a
generated name (`gen_name` stands for `generate_random_username()`, external
randomness), run the diagram-initialisation step, then send the init message
directly to the new connection and broadcast `users_update` excluding it.
The init payload is `{"type": "init", "user_id": ..., "user_name": ...,
**full_state}` where `full_state = state_manager.get_full_state()`
contributes exactly the keys `xml`, `users` and `locked_elements`
(src/server/managers/state_manager.py lines 54-59).  `user_name` reads
`full_state["users"][user_id]`, which is the freshly added name; the
embedding uses `getD ""` in place of the KeyError that a failed lookup
would raise. -/
def handle_initial_connection_event (loadTemplate : String → String)
    (sess : DiagramSession) (websocket user_id gen_name template : String) :
    DiagramSession × List OutMsg :=
  let st1 := (add_user sess.base user_id gen_name).1
  let sess1 := (initial_connection_diagram_step loadTemplate
    { sess with base := st1 } template).1
  let full := sess1.base
  let user_name := (dictGet full.users user_id).getD ""
  (sess1,
   [OutMsg.direct websocket
      (JVal.jobj [("type", JVal.jstr "init"), ("user_id", JVal.jstr user_id),
                  ("user_name", JVal.jstr user_name),
                  ("xml", JVal.jstr full.xml),
                  ("users", dictToJVal full.users),
                  ("locked_elements", dictToJVal full.locked_elements)]),
    OutMsg.broadcastExcl (some websocket)
      (JVal.jobj [("type", JVal.jstr "users_update"),
                  ("users", dictToJVal full.users)])])

/-! ## ConnectionManager (src/server/managers/connections_manager.py) -/

/-- `ConnectionResponse` TypedDict. -/
structure ConnectionResponse where
  success : Bool
  user_id : Option String
  error : Option String
deriving Repr, DecidableEq

/-- The mutable fields of `ConnectionManager`: the set of active connections
and the websocket-to-user-id map (websocket handles embedded as strings). -/
structure ConnectionManager where
  active_connections : List String
  ws_uid_map : Dict
deriving Repr, DecidableEq

/-- `disconnect`: look up the user id (`.get(websocket, None)`), discard the
connection from the active set, pop the mapping (both tolerate absence) and
return success; no statement in the body raises, so the `except` branch is
unreachable. -/
def disconnect (cm : ConnectionManager) (websocket : String) :
    ConnectionManager × ConnectionResponse :=
  let user_id := dictGet cm.ws_uid_map websocket
  ({ active_connections := cm.active_connections.filter (fun c => c != websocket),
     ws_uid_map := dictDel cm.ws_uid_map websocket },
   { success := true, user_id := user_id, error := none })

/-- Result of one `broadcast` call: which connections received the message,
and the registry after the failure-triggered disconnects. -/
structure BroadcastOutcome where
  delivered : List String
  registry : ConnectionManager
deriving Repr, DecidableEq

/-- `broadcast(message, exclude)`: build one `_safe_send` task per active
connection other than `exclude` and run them all with
`asyncio.gather(..., return_exceptions=True)`.  `_safe_send` catches any
transport exception and calls `disconnect` on that connection, so one
failure neither stops nor fails the other deliveries, and a failed delivery
is not retried.  `sendFails` is the transport failure oracle. -/
def broadcast (sendFails : String → Bool) (cm : ConnectionManager)
    (_message : JVal) (exclude : Option String) : BroadcastOutcome :=
  let recipients := cm.active_connections.filter (fun c => some c != exclude)
  { delivered := recipients.filter (fun c => !sendFails c),
    registry := (recipients.filter (fun c => sendFails c)).foldl
      (fun acc c => (disconnect acc c).1) cm }

/-- Modelled from the spec: a connection whose delivery fails during a
broadcast is "treated as an implicit disconnect", after which the same
cleanup as a normal disconnect runs — the endpoint wiring is absent from
src (`src/server/main.py` is a legacy standalone server), so the
composition of `disconnect` with `handle_flush_user_data` (both from src)
follows the spec's disconnect control flow. -/
def implicit_disconnect_cleanup (cm : ConnectionManager) (st : StateManager)
    (websocket : String) : ConnectionManager × StateManager × List OutMsg :=
  let r := disconnect cm websocket
  match r.2.user_id with
  | none => (r.1, st, [])
  | some uid =>
    let f := handle_flush_user_data st uid
    (r.1, f.1, f.2)

/-! ## Inbound message validation (src/server/models.py and
`handle_json_validation` in src/server/event_handlers.py) -/

/-- A raw inbound text frame after the `is_valid_json` check: either text
that `json.loads` rejects, or the parsed JSON value. -/
inductive Frame where
  | notJson (raw : String)
  | json (v : JVal)

/-- The four pydantic inbound message models. -/
inductive InboundMsg where
  | xmlUpdate (xml : String)
  | userNameUpdate (name : String)
  | elementSelect (element_ids : List String)
  | elementDeselect (element_id : String)
deriving Repr, DecidableEq

/-- `.get(k)` on a parsed JSON object. -/
def jGet (fields : List (String × JVal)) (k : String) : Option JVal :=
  match fields with
  | [] => none
  | p :: rest => if p.1 == k then some p.2 else jGet rest k

/-- A JSON value accepted for a pydantic `str` field. -/
def asJStr : JVal → Option String
  | JVal.jstr s => some s
  | _ => none

/-- A JSON array accepted for a pydantic `list[str]` field. -/
def asJStrList : List JVal → Option (List String)
  | [] => some []
  | v :: rest =>
    match asJStr v, asJStrList rest with
    | some s, some ss => some (s :: ss)
    | _, _ => none

/-- `XmlUpdateMessage(**raw)`: `xml: str = Field(..., min_length=1)`; a
missing, non-string or empty `xml` is a `ValidationError`. -/
def validateXmlUpdate (fields : List (String × JVal)) : Option InboundMsg :=
  match jGet fields "xml" with
  | some (JVal.jstr s) =>
    if s.length ≥ 1 then some (InboundMsg.xmlUpdate s) else none
  | _ => none

/-- `UserNameUpdateMessage(**raw)`: `name: str = Field(..., min_length=1,
max_length=100)`. -/
def validateUserNameUpdate (fields : List (String × JVal)) : Option InboundMsg :=
  match jGet fields "name" with
  | some (JVal.jstr s) =>
    if 1 ≤ s.length && s.length ≤ 100 then some (InboundMsg.userNameUpdate s) else none
  | _ => none

/-- `ElementSelectMessage(**raw)`: `element_ids: list[str] =
Field(default_factory=list)`; absent means `[]`, present must be a list of
strings. -/
def validateElementSelect (fields : List (String × JVal)) : Option InboundMsg :=
  match jGet fields "element_ids" with
  | none => some (InboundMsg.elementSelect [])
  | some (JVal.jarr items) =>
    match asJStrList items with
    | some ids => some (InboundMsg.elementSelect ids)
    | none => none
  | some _ => none

/-- `ElementDeselectMessage(**raw)`: `element_id: str = Field(...,
min_length=1)`. -/
def validateElementDeselect (fields : List (String × JVal)) : Option InboundMsg :=
  match jGet fields "element_id" with
  | some (JVal.jstr s) =>
    if s.length ≥ 1 then some (InboundMsg.elementDeselect s) else none
  | _ => none

/-- Python text of the `type` value interpolated into the unknown-type error
message (compound values abbreviated). -/
def jvalToPyText : JVal → String
  | JVal.jnull => "None"
  | JVal.jbool true => "True"
  | JVal.jbool false => "False"
  | JVal.jnum n => toString n
  | JVal.jstr s => s
  | JVal.jarr _ => "<list>"
  | JVal.jobj _ => "<dict>"

/-- `handle_json_validation`: text failing `is_valid_json` gets an
`error` reply ("Invalid JSON format") and `None`; otherwise the frame is
`json.loads`ed and `raw_message.get("type")` is read — when the parsed value
is not a dict this raises an `AttributeError` that nothing in the function
catches (only `ValidationError` is caught), embedded as `Except.error`.  A
recognised type string builds the matching pydantic model; a
`ValidationError` or an unknown/missing type sends an `error` reply to the
sender and returns `None`.  The pydantic validation detail text is
abstracted to a fixed placeholder. -/
def handle_json_validation (websocket : String) (f : Frame) :
    Except String (List OutMsg × Option InboundMsg) :=
  match f with
  | Frame.notJson _ =>
    Except.ok ([OutMsg.direct websocket (errorPayload "Invalid JSON format")], none)
  | Frame.json (JVal.jobj fields) =>
    match jGet fields "type" with
    | some (JVal.jstr t) =>
      if t == "xml_update" then
        match validateXmlUpdate fields with
        | some m => Except.ok ([], some m)
        | none =>
          Except.ok ([OutMsg.direct websocket (errorPayload "Validation error: <detail>")], none)
      else if t == "user_name_update" then
        match validateUserNameUpdate fields with
        | some m => Except.ok ([], some m)
        | none =>
          Except.ok ([OutMsg.direct websocket (errorPayload "Validation error: <detail>")], none)
      else if t == "element_select" then
        match validateElementSelect fields with
        | some m => Except.ok ([], some m)
        | none =>
          Except.ok ([OutMsg.direct websocket (errorPayload "Validation error: <detail>")], none)
      else if t == "element_deselect" then
        match validateElementDeselect fields with
        | some m => Except.ok ([], some m)
        | none =>
          Except.ok ([OutMsg.direct websocket (errorPayload "Validation error: <detail>")], none)
      else
        Except.ok ([OutMsg.direct websocket
          (errorPayload ("Unknown message type: " ++ t))], none)
    | some v =>
      Except.ok ([OutMsg.direct websocket
        (errorPayload ("Unknown message type: " ++ jvalToPyText v))], none)
    | none =>
      Except.ok ([OutMsg.direct websocket
        (errorPayload "Unknown message type: None")], none)
  | Frame.json _ =>
    Except.error "AttributeError: parsed JSON value has no attribute get"

/-- Modelled from the spec: one iteration of the websocket receive loop (the
endpoint wiring that calls `handle_json_validation` and the dispatch below
is absent from src; `src/server/main.py` is a legacy standalone server).
Per the spec's MessageRouter design the loop dispatches to the store
handlers only when validation produced a message, and otherwise the inbound
frame has no further effect. -/
def process_frame (isValidXml : String → Bool) (st : StateManager)
    (websocket user_id : String) (f : Frame) :
    Except String (StateManager × List OutMsg) :=
  match handle_json_validation websocket f with
  | Except.error e => Except.error e
  | Except.ok (sent, none) => Except.ok (st, sent)
  | Except.ok (_, some (InboundMsg.xmlUpdate xml)) =>
    Except.ok (handle_xml_update_event isValidXml st websocket xml)
  | Except.ok (_, some (InboundMsg.userNameUpdate name)) =>
    Except.ok (handle_user_name_update_event st websocket user_id name)
  | Except.ok (_, some (InboundMsg.elementSelect ids)) =>
    Except.ok (handle_element_select_event st user_id ids)
  | Except.ok (_, some (InboundMsg.elementDeselect e)) =>
    Except.ok (handle_element_deselect_event st user_id e)

/-- The lock-acquisition loop of `handle_element_select_event`
(`for element_id in message.element_ids: lock_element(...)`, each failure
ignored). -/
def lockAll (st : StateManager) (u : String) (ids : List String) : StateManager :=
  ids.foldl (fun acc e => (lock_element acc u e).1) st

/-- The frames the validation stage rejects with an error reply: text that is
not valid JSON, and JSON objects whose `type` is unknown or missing or whose
fields fail the pydantic constraints.  (A frame that is valid JSON but not
an object is NOT in this set: on such a frame `handle_json_validation`
raises instead of replying.) -/
def validationRejects (f : Frame) : Bool :=
  match f with
  | Frame.notJson _ => true
  | Frame.json (JVal.jobj fields) =>
    match jGet fields "type" with
    | some (JVal.jstr t) =>
      if t == "xml_update" then (validateXmlUpdate fields).isNone
      else if t == "user_name_update" then (validateUserNameUpdate fields).isNone
      else if t == "element_select" then (validateElementSelect fields).isNone
      else if t == "element_deselect" then (validateElementDeselect fields).isNone
      else true
    | some _ => true
    | none => true
  | Frame.json _ => false

/-! ## Association-list lemmas -/

theorem dictGet_none_of_not_mem_keys {d : Dict} {k : String}
    (h : k ∉ dictKeys d) : dictGet d k = none := by
  induction d with
  | nil => rfl
  | cons p rest ih =>
    simp only [dictKeys, List.map_cons, List.mem_cons, not_or] at h
    simp only [dictGet]
    have : (p.1 == k) = false := by
      simp only [beq_eq_false_iff_ne, ne_eq]
      exact fun hpk => h.1 (hpk ▸ rfl)
    rw [this]
    simp only [Bool.false_eq_true, if_false]
    exact ih (by simpa [dictKeys] using h.2)

theorem not_mem_keys_of_dictGet_none {d : Dict} {k : String}
    (h : dictGet d k = none) : k ∉ dictKeys d := by
  induction d with
  | nil => simp [dictKeys]
  | cons p rest ih =>
    simp only [dictGet] at h
    by_cases hpk : (p.1 == k) = true
    · rw [if_pos hpk] at h; exact absurd h (by simp)
    · rw [if_neg hpk] at h
      simp only [dictKeys, List.map_cons, List.mem_cons, not_or]
      refine ⟨?_, ih h⟩
      intro hk
      exact hpk (by simp [hk.symm])

theorem dictGet_mem {d : Dict} {k v : String}
    (h : dictGet d k = some v) : (k, v) ∈ d := by
  induction d with
  | nil => simp [dictGet] at h
  | cons p rest ih =>
    simp only [dictGet] at h
    by_cases hpk : (p.1 == k) = true
    · rw [if_pos hpk] at h
      have hk : p.1 = k := by simpa using hpk
      have hv : p.2 = v := by simpa using h
      have : p = (k, v) := by
        cases p with
        | mk a b => simp_all
      simp [this]
    · rw [if_neg hpk] at h
      exact List.mem_cons_of_mem _ (ih h)

theorem dictGet_of_mem_nodup {d : Dict} {k v : String}
    (hN : (dictKeys d).Nodup) (h : (k, v) ∈ d) : dictGet d k = some v := by
  induction d with
  | nil => simp at h
  | cons p rest ih =>
    simp only [dictKeys, List.map_cons, List.nodup_cons] at hN
    rcases List.mem_cons.mp h with h1 | h1
    · subst h1
      simp [dictGet]
    · have hk : p.1 ≠ k := by
        intro hpk
        exact hN.1 (by simpa [dictKeys, hpk] using List.mem_map_of_mem Prod.fst h1)
      have : (p.1 == k) = false := by simpa using hk
      simp only [dictGet, this, Bool.false_eq_true, if_false]
      exact ih hN.2 h1

theorem dictSet_eq_append {d : Dict} {k : String} (v : String)
    (h : dictGet d k = none) : dictSet d k v = d ++ [(k, v)] := by
  induction d with
  | nil => rfl
  | cons p rest ih =>
    simp only [dictGet] at h
    by_cases hpk : (p.1 == k) = true
    · rw [if_pos hpk] at h; exact absurd h (by simp)
    · rw [if_neg hpk] at h
      simp only [dictSet, hpk, Bool.false_eq_true, if_false, List.cons_append,
        List.cons.injEq, true_and]
      exact ih h

theorem dictGet_append_left {d : Dict} {k v : String} (t : Dict)
    (h : dictGet d k = some v) : dictGet (d ++ t) k = some v := by
  induction d with
  | nil => simp [dictGet] at h
  | cons p rest ih =>
    simp only [dictGet] at h ⊢
    by_cases hpk : (p.1 == k) = true
    · rwa [if_pos hpk] at h ⊢
    · rw [if_neg hpk] at h ⊢
      exact ih h

theorem dictGet_append_of_none {d : Dict} {k : String} (t : Dict)
    (h : dictGet d k = none) : dictGet (d ++ t) k = dictGet t k := by
  induction d with
  | nil => rfl
  | cons p rest ih =>
    simp only [dictGet] at h ⊢
    by_cases hpk : (p.1 == k) = true
    · rw [if_pos hpk] at h; exact absurd h (by simp)
    · rw [if_neg hpk] at h ⊢
      exact ih h

theorem dictGet_singleton_self (k v : String) :
    dictGet [(k, v)] k = some v := by
  simp [dictGet]

theorem dictGet_singleton_ne {k e : String} (v : String) (h : k ≠ e) :
    dictGet [(e, v)] k = none := by
  have : (e == k) = false := by simpa using fun hek => h hek.symm
  simp [dictGet, this]

theorem dictKeys_append (d t : Dict) :
    dictKeys (d ++ t) = dictKeys d ++ dictKeys t := by
  simp [dictKeys]

theorem dictGet_filter_sub {d : Dict} {q : String × String → Bool} {k v : String}
    (h : dictGet (d.filter q) k = some v) : (k, v) ∈ d := by
  have := dictGet_mem h
  exact (List.mem_filter.mp this).1

/-- `l.contains` agrees with membership for strings. -/
theorem contains_eq_true_iff_mem {l : List String} {a : String} :
    l.contains a = true ↔ a ∈ l :=
  List.elem_iff

theorem dictGet_dictDel_self (d : Dict) (k : String) :
    dictGet (dictDel d k) k = none := by
  apply dictGet_none_of_not_mem_keys
  intro hk
  rcases List.mem_map.mp hk with ⟨q, hq, hq1⟩
  have := (List.mem_filter.mp hq).2
  rw [hq1] at this
  simp at this

theorem nodup_keys_filter {d : Dict} (q : String × String → Bool)
    (hN : (dictKeys d).Nodup) : (dictKeys (d.filter q)).Nodup :=
  List.Nodup.sublist (List.Sublist.map Prod.fst (List.filter_sublist d)) hN

theorem countP_key_zero_of_get_none {d : Dict} {k : String}
    (h : dictGet d k = none) : d.countP (fun p => p.1 == k) = 0 := by
  rw [List.countP_eq_zero]
  intro p hp hpk
  have hk : p.1 = k := by simpa using hpk
  exact not_mem_keys_of_dictGet_none h (hk ▸ List.mem_map_of_mem Prod.fst hp)

/-! ## Characterisations of the store operations -/

theorem lock_element_free {st : StateManager} {e : String} (u : String)
    (h : dictGet st.locked_elements e = none) :
    lock_element st u e =
      ({ st with locked_elements := st.locked_elements ++ [(e, u)] },
       { success := true, locked_elements := some (st.locked_elements ++ [(e, u)]),
         error := none }) := by
  simp [lock_element, lock_element_inner, h, dictSet_eq_append u h]

theorem lock_element_taken {st : StateManager} {e o : String} (u : String)
    (h : dictGet st.locked_elements e = some o) :
    lock_element st u e =
      (st, { success := false, locked_elements := none,
             error := some "Element is already locked" }) := by
  simp [lock_element, lock_element_inner, h]

theorem lock_element_users (st : StateManager) (u e : String) :
    (lock_element st u e).1.users = st.users := by
  cases h : dictGet st.locked_elements e with
  | none => simp [lock_element_free u h]
  | some o => simp [lock_element_taken u h]

theorem lock_element_get_some {st : StateManager} {k o : String} (u e : String)
    (h : dictGet st.locked_elements k = some o) :
    dictGet (lock_element st u e).1.locked_elements k = some o := by
  cases hfree : dictGet st.locked_elements e with
  | none => rw [lock_element_free u hfree]; exact dictGet_append_left _ h
  | some o' => rw [lock_element_taken u hfree]; exact h

theorem lock_element_get_none_ne {st : StateManager} {k e : String} (u : String)
    (h : dictGet st.locked_elements k = none) (hne : k ≠ e) :
    dictGet (lock_element st u e).1.locked_elements k = none := by
  cases hfree : dictGet st.locked_elements e with
  | none =>
    rw [lock_element_free u hfree]
    rw [dictGet_append_of_none _ h]
    exact dictGet_singleton_ne u hne
  | some o' => rw [lock_element_taken u hfree]; exact h

theorem lock_element_mem_mono {st : StateManager} {p : String × String}
    (u e : String) (hp : p ∈ st.locked_elements) :
    p ∈ (lock_element st u e).1.locked_elements := by
  cases hfree : dictGet st.locked_elements e with
  | none => rw [lock_element_free u hfree]; exact List.mem_append_left _ hp
  | some o' => rw [lock_element_taken u hfree]; exact hp

theorem lock_element_mem_super {st : StateManager} {p : String × String}
    (u e : String) (hp : p ∈ (lock_element st u e).1.locked_elements) :
    p ∈ st.locked_elements ∨ p = (e, u) := by
  cases hfree : dictGet st.locked_elements e with
  | none =>
    rw [lock_element_free u hfree] at hp
    rcases List.mem_append.mp hp with h1 | h1
    · exact Or.inl h1
    · exact Or.inr (by simpa using h1)
  | some o' => rw [lock_element_taken u hfree] at hp; exact Or.inl hp

theorem lock_element_nodup_keys {st : StateManager} (u e : String)
    (hN : (dictKeys st.locked_elements).Nodup) :
    (dictKeys (lock_element st u e).1.locked_elements).Nodup := by
  cases hfree : dictGet st.locked_elements e with
  | none =>
    rw [lock_element_free u hfree]
    simp only [dictKeys_append]
    rw [List.nodup_append]
    refine ⟨hN, by simp [dictKeys], ?_⟩
    intro a ha hb
    have : a = e := by simpa [dictKeys] using hb
    exact not_mem_keys_of_dictGet_none hfree (this ▸ ha)
  | some o' => rw [lock_element_taken u hfree]; exact hN

theorem lockAll_users (st : StateManager) (u : String) (ids : List String) :
    (lockAll st u ids).users = st.users := by
  induction ids generalizing st with
  | nil => rfl
  | cons e rest ih =>
    show (lockAll (lock_element st u e).1 u rest).users = st.users
    rw [ih, lock_element_users]

theorem lockAll_get_some {st : StateManager} {k o : String} (u : String)
    (ids : List String) (h : dictGet st.locked_elements k = some o) :
    dictGet (lockAll st u ids).locked_elements k = some o := by
  induction ids generalizing st with
  | nil => exact h
  | cons e rest ih =>
    exact ih (lock_element_get_some u e h)

theorem lockAll_mem_mono {st : StateManager} {p : String × String} (u : String)
    (ids : List String) (hp : p ∈ st.locked_elements) :
    p ∈ (lockAll st u ids).locked_elements := by
  induction ids generalizing st with
  | nil => exact hp
  | cons e rest ih => exact ih (lock_element_mem_mono u e hp)

theorem lockAll_mem_super {st : StateManager} {p : String × String} (u : String)
    (ids : List String) (hp : p ∈ (lockAll st u ids).locked_elements) :
    p ∈ st.locked_elements ∨ (p.2 = u ∧ p.1 ∈ ids) := by
  induction ids generalizing st with
  | nil => exact Or.inl hp
  | cons e rest ih =>
    have hp' : p ∈ (lockAll (lock_element st u e).1 u rest).locked_elements := hp
    rcases ih hp' with h1 | h1
    · rcases lock_element_mem_super u e h1 with h2 | h2
      · exact Or.inl h2
      · exact Or.inr (by simp [h2])
    · exact Or.inr ⟨h1.1, List.mem_cons_of_mem _ h1.2⟩

theorem lockAll_nodup_keys {st : StateManager} (u : String) (ids : List String)
    (hN : (dictKeys st.locked_elements).Nodup) :
    (dictKeys (lockAll st u ids).locked_elements).Nodup := by
  induction ids generalizing st with
  | nil => exact hN
  | cons e rest ih => exact ih (lock_element_nodup_keys u e hN)

theorem lockAll_get_of_free_mem {st : StateManager} {e : String} (u : String)
    (ids : List String) (h : dictGet st.locked_elements e = none) (he : e ∈ ids) :
    dictGet (lockAll st u ids).locked_elements e = some u := by
  induction ids generalizing st with
  | nil => simp at he
  | cons i rest ih =>
    by_cases hei : e = i
    · subst hei
      have hstep : dictGet (lock_element st u e).1.locked_elements e = some u := by
        rw [lock_element_free u h, dictGet_append_of_none _ h]
        exact dictGet_singleton_self e u
      exact lockAll_get_some u rest hstep
    · rcases List.mem_cons.mp he with h1 | h1
      · exact absurd h1 hei
      · exact ih (lock_element_get_none_ne u h hei) h1

theorem foldl_dictDel_eq_filter (ks : List String) (d : Dict) :
    ks.foldl (fun acc e => dictDel acc e) d
      = d.filter (fun p => !ks.contains p.1) := by
  induction ks generalizing d with
  | nil => simp
  | cons k ks ih =>
    simp only [List.foldl_cons]
    rw [ih]
    unfold dictDel
    rw [List.filter_filter]
    apply List.filter_congr
    intro p _
    simp only [List.contains_cons, Bool.not_or, bne]
    rw [Bool.and_comm]

theorem clear_locks_unknown {st : StateManager} {u : String}
    (h : dictGet st.users u = none) :
    clear_locks_by_user st u =
      (st, { success := false, locked_elements := none,
             error := some "User with this ID does not exist" }) := by
  simp [clear_locks_by_user, clear_locks_by_user_inner, h]

theorem clear_locks_known {st : StateManager} {u : String}
    (h : (dictGet st.users u).isSome)
    (hN : (dictKeys st.locked_elements).Nodup) :
    clear_locks_by_user st u =
      ({ st with locked_elements := st.locked_elements.filter (fun p => p.2 != u) },
       { success := true,
         locked_elements := some (st.locked_elements.filter (fun p => p.2 != u)),
         error := none }) := by
  have hfilter :
      ((st.locked_elements.filter (fun p => p.2 == u)).map Prod.fst).foldl
          (fun acc e => dictDel acc e) st.locked_elements
        = st.locked_elements.filter (fun p => p.2 != u) := by
    rw [foldl_dictDel_eq_filter]
    apply List.filter_congr
    intro p hp
    by_cases hpu : p.2 = u
    · have hmem : p.1 ∈ (st.locked_elements.filter (fun q => q.2 == u)).map Prod.fst :=
        List.mem_map_of_mem Prod.fst
          (List.mem_filter.mpr ⟨hp, by simp [hpu]⟩)
      have hc : ((st.locked_elements.filter (fun q => q.2 == u)).map Prod.fst).contains p.1 = true :=
        contains_eq_true_iff_mem.mpr hmem
      rw [hc, hpu]
      simp
    · have hnmem : p.1 ∉ (st.locked_elements.filter (fun q => q.2 == u)).map Prod.fst := by
        intro hmem
        rcases List.mem_map.mp hmem with ⟨q, hq, hq1⟩
        have hq2 := List.mem_filter.mp hq
        have hqu : q.2 = u := by simpa using hq2.2
        have : q = p := List.inj_on_of_nodup_map hN hq2.1 hp hq1
        exact hpu (this ▸ hqu)
      have hc : ((st.locked_elements.filter (fun q => q.2 == u)).map Prod.fst).contains p.1 = false := by
        cases hc : ((st.locked_elements.filter (fun q => q.2 == u)).map Prod.fst).contains p.1 with
        | false => rfl
        | true => exact absurd (contains_eq_true_iff_mem.mp hc) hnmem
      rw [hc]
      simpa using hpu
  simp only [clear_locks_by_user, clear_locks_by_user_inner, h, Bool.not_true,
    Bool.false_eq_true, if_false, hfilter]

theorem remove_user_unknown {st : StateManager} {id : String}
    (h : dictGet st.users id = none) :
    remove_user st id =
      (st, { success := false, users := none,
             error := some "User with this ID does not exist" }) := by
  simp [remove_user, remove_user_inner, h]

theorem remove_user_known {st : StateManager} {id : String}
    (h : (dictGet st.users id).isSome) :
    remove_user st id =
      ({ st with users := dictDel st.users id },
       { success := true, users := some (dictDel st.users id), error := none }) := by
  have : (dictGet st.users id).isNone = false := by
    cases hx : dictGet st.users id with
    | none => rw [hx] at h; simp at h
    | some v => simp
  simp [remove_user, remove_user_inner, this]

theorem foldl_disconnect_active (ks : List String) (cm : ConnectionManager) :
    (ks.foldl (fun acc x => (disconnect acc x).1) cm).active_connections
      = cm.active_connections.filter (fun x => !ks.contains x) := by
  induction ks generalizing cm with
  | nil => simp
  | cons k ks ih =>
    simp only [List.foldl_cons]
    rw [ih]
    show (cm.active_connections.filter (fun c => c != k)).filter (fun x => !ks.contains x) = _
    rw [List.filter_filter]
    apply List.filter_congr
    intro x _
    simp only [List.contains_cons, Bool.not_or, bne]
    rw [Bool.and_comm]

theorem foldl_disconnect_map (ks : List String) (cm : ConnectionManager) :
    (ks.foldl (fun acc x => (disconnect acc x).1) cm).ws_uid_map
      = cm.ws_uid_map.filter (fun p => !ks.contains p.1) := by
  induction ks generalizing cm with
  | nil => simp
  | cons k ks ih =>
    simp only [List.foldl_cons]
    rw [ih]
    show (cm.ws_uid_map.filter (fun p => p.1 != k)).filter (fun p => !ks.contains p.1) = _
    rw [List.filter_filter]
    apply List.filter_congr
    intro p _
    simp only [List.contains_cons, Bool.not_or, bne]
    rw [Bool.and_comm]

/-- `handle_flush_user_data` for a registered user: with nodup lock keys, the
resulting state has the user's locks filtered out and the user removed, and
nothing else changed. -/
theorem handle_flush_user_data_state {st : StateManager} {uid : String}
    (hu : (dictGet st.users uid).isSome)
    (hN : (dictKeys st.locked_elements).Nodup) :
    (handle_flush_user_data st uid).1 =
      { xml := st.xml, users := dictDel st.users uid,
        locked_elements := st.locked_elements.filter (fun p => p.2 != uid) } := by
  show (remove_user (clear_locks_by_user st uid).1 uid).1 = _
  rw [clear_locks_known hu hN]
  rw [remove_user_known (by simpa using hu)]

/-! ## Claim theorems -/

/-- C1: `initialize(template)` fails with `AlreadyInitialized` when the
session's `initialized` flag is already true; otherwise it loads the named
template (or the default), sets the diagram's `xml` and `template`, and sets
`initialized` to true; and the connecting handler invokes this operation on
the state store exactly when the store is not yet initialized. -/
theorem c1_first_connect_init (L : String → String) (s : DiagramSession)
    (t : String) :
    (s.is_initialized = true →
      init_diagram L s t = Except.error "AlreadyInitialized")
  ∧ (s.is_initialized = false →
      init_diagram L s t = Except.ok
        { base := { s.base with xml := L (get_template_or_default (some t)) },
          template := some (get_template_or_default (some t)),
          is_initialized := true })
  ∧ ((initial_connection_diagram_step L s t).2 = !s.is_initialized) := by
  refine ⟨?_, ?_, ?_⟩
  · intro h; simp [init_diagram, h]
  · intro h; simp [init_diagram, h]
  · cases hs : s.is_initialized with
    | true => simp [initial_connection_diagram_step, hs]
    | false => simp [initial_connection_diagram_step, init_diagram, hs]

/-- C1 witness: an initialized session is refused; an uninitialized session
with an invalid template name gets the default template loaded. -/
theorem c1_first_connect_init_witness :
    init_diagram (fun _ => "TPL") ⟨⟨"x", [], []⟩, some "blank", true⟩ "blank"
      = Except.error "AlreadyInitialized"
  ∧ init_diagram (fun _ => "TPL") ⟨⟨"x", [], []⟩, none, false⟩ "bogus"
      = Except.ok ⟨⟨"TPL", [], []⟩, some "blank", true⟩ :=
  ⟨(c1_first_connect_init (fun _ => "TPL") ⟨⟨"x", [], []⟩, some "blank", true⟩
      "blank").1 rfl,
   (c1_first_connect_init (fun _ => "TPL") ⟨⟨"x", [], []⟩, none, false⟩
      "bogus").2.1 rfl⟩

/-- C2 (the code violates the claim): on a domain failure of `update_xml`
(the well-formedness check rejects the text), `handle_xml_update_event`
still broadcasts an `xml_update` — carrying the serialised `success=False`
response dict — to all other connections, and sends no `error` message to
the sender; the store call returns a response dict instead of raising, so
the handler's `except ValueError` branch never runs. -/
theorem c2_xml_update_failure_broadcasts :
    handle_xml_update_event (fun s => s != "<invalid><unclosed>")
      { xml := "<ok/>", users := [("alice", "Alice"), ("bob", "Bob")],
        locked_elements := [] }
      "wsA" "<invalid><unclosed>" =
    ({ xml := "<ok/>", users := [("alice", "Alice"), ("bob", "Bob")],
       locked_elements := [] },
     [OutMsg.broadcastExcl (some "wsA") (JVal.jobj
        [("type", JVal.jstr "xml_update"),
         ("xml", JVal.jobj [("success", JVal.jbool false), ("xml", JVal.jnull),
                            ("error", JVal.jstr "Invalid XML provided")])])]) := by
  rfl

/-- C3 (the code violates the field list): the init message sent directly to
the newly admitted connection — the only direct send of the handler — has
exactly the fields `type`, `user_id`, `user_name`, `xml`, `users`,
`locked_elements`; `template` and `is_initialized` are absent, because
`get_full_state` does not include them. -/
theorem c3_init_message_fields (L : String → String) (sess : DiagramSession)
    (ws uid gen tpl : String) :
    ∃ fields bpayload,
      (handle_initial_connection_event L sess ws uid gen tpl).2 =
        [OutMsg.direct ws (JVal.jobj fields),
         OutMsg.broadcastExcl (some ws) bpayload]
      ∧ fields.map Prod.fst =
          ["type", "user_id", "user_name", "xml", "users", "locked_elements"]
      ∧ "template" ∉ fields.map Prod.fst
      ∧ "is_initialized" ∉ fields.map Prod.fst := by
  refine ⟨_, _, rfl, rfl, ?_, ?_⟩ <;> simp

/-- C4: `element_select` first releases all of the sender's previous locks,
then attempts each requested element in order; an element owned by another
user is skipped while the remaining acquisitions succeed; the
`locked_elements_update` broadcast carries the final lock map; and in
particular a sender who held only `e1` and selects `[e2]` ends with exactly
`{e2: sender}`. -/
theorem c4_element_select_semantics (st : StateManager) (sender : String)
    (ids : List String) (hu : (dictGet st.users sender).isSome)
    (hN : (dictKeys st.locked_elements).Nodup) :
    (∀ e o, (e, o) ∈ st.locked_elements → o ≠ sender →
       dictGet (handle_element_select_event st sender ids).1.locked_elements e
         = some o)
  ∧ (∀ e o, (e, o) ∈ (handle_element_select_event st sender ids).1.locked_elements →
       (o = sender ∧ e ∈ ids) ∨ ((e, o) ∈ st.locked_elements ∧ o ≠ sender))
  ∧ (∀ e, e ∈ ids → (∀ o, dictGet st.locked_elements e = some o → o = sender) →
       dictGet (handle_element_select_event st sender ids).1.locked_elements e
         = some sender)
  ∧ (handle_element_select_event st sender ids).2 =
      [OutMsg.broadcastExcl none (JVal.jobj
        [("type", JVal.jstr "locked_elements_update"),
         ("locked_elements",
          dictToJVal (handle_element_select_event st sender ids).1.locked_elements)])]
  ∧ (handle_element_select_event
       { xml := "x", users := [("alice", "Alice")],
         locked_elements := [("e1", "alice")] } "alice" ["e2"]).1.locked_elements
      = [("e2", "alice")] := by
  have hfinal : (handle_element_select_event st sender ids).1
      = lockAll (clear_locks_by_user st sender).1 sender ids := rfl
  have hclear : (clear_locks_by_user st sender).1
      = { st with locked_elements := st.locked_elements.filter (fun p => p.2 != sender) } := by
    rw [clear_locks_known hu hN]
  have hNc : (dictKeys ((clear_locks_by_user st sender).1.locked_elements)).Nodup := by
    rw [hclear]; exact nodup_keys_filter _ hN
  refine ⟨?_, ?_, ?_, rfl, by decide⟩
  · intro e o hmem hne
    rw [hfinal]
    apply lockAll_get_some
    rw [hclear]
    exact dictGet_of_mem_nodup (by rw [hclear] at hNc; exact hNc)
      (List.mem_filter.mpr ⟨hmem, bne_iff_ne.mpr hne⟩)
  · intro e o hmem
    rw [hfinal] at hmem
    rcases lockAll_mem_super sender ids hmem with h1 | h1
    · rw [hclear] at h1
      have h2 := List.mem_filter.mp h1
      exact Or.inr ⟨h2.1, bne_iff_ne.mp h2.2⟩
    · exact Or.inl ⟨h1.1, h1.2⟩
  · intro e he hown
    rw [hfinal]
    apply lockAll_get_of_free_mem sender ids _ he
    rw [hclear]
    cases hg : dictGet (st.locked_elements.filter (fun p => p.2 != sender)) e with
    | none => rfl
    | some o =>
      exfalso
      have hmem := dictGet_mem hg
      have h2 := List.mem_filter.mp hmem
      have : o = sender := hown o (dictGet_of_mem_nodup hN h2.1)
      rw [this] at h2
      simpa using h2.2

/-- C4 witness: the concrete scenario — the sender held `e1`, selects `e2`,
and the final map is exactly `{e2: sender}`. -/
theorem c4_element_select_semantics_witness :
    (handle_element_select_event
       { xml := "x", users := [("alice", "Alice")],
         locked_elements := [("e1", "alice")] } "alice" ["e2"]).1.locked_elements
      = [("e2", "alice")] :=
  (c4_element_select_semantics
    { xml := "x", users := [("alice", "Alice")], locked_elements := [("e1", "alice")] }
    "alice" ["e2"] (by decide) (by decide)).2.2.2.2

/-- C5: `clear_locks_by_user(user_id)` fails with the unknown-user error when
`user_id` is not registered; otherwise it removes every lock owned by that
user (a no-op, not an error, when none exist), leaves every other user's
lock in place, and returns the remaining lock map in its response. -/
theorem c5_clear_locks_by_user_spec (st : StateManager) (u : String)
    (hN : (dictKeys st.locked_elements).Nodup) :
    (dictGet st.users u = none →
       clear_locks_by_user st u =
         (st, { success := false, locked_elements := none,
                error := some "User with this ID does not exist" }))
  ∧ ((dictGet st.users u).isSome →
       (clear_locks_by_user st u).2 =
         { success := true,
           locked_elements := some (clear_locks_by_user st u).1.locked_elements,
           error := none }
     ∧ (∀ e, (e, u) ∉ (clear_locks_by_user st u).1.locked_elements)
     ∧ (∀ p ∈ st.locked_elements, p.2 ≠ u →
          p ∈ (clear_locks_by_user st u).1.locked_elements)
     ∧ (clear_locks_by_user st u).1.users = st.users
     ∧ (clear_locks_by_user st u).1.xml = st.xml
     ∧ ((∀ p ∈ st.locked_elements, p.2 ≠ u) →
          (clear_locks_by_user st u).1 = st)) := by
  constructor
  · intro h; exact clear_locks_unknown h
  · intro h
    rw [clear_locks_known h hN]
    refine ⟨rfl, ?_, ?_, rfl, rfl, ?_⟩
    · intro e hmem
      have := (List.mem_filter.mp hmem).2
      simp at this
    · intro p hp hne
      exact List.mem_filter.mpr ⟨hp, bne_iff_ne.mpr hne⟩
    · intro hall
      have : st.locked_elements.filter (fun p => p.2 != u) = st.locked_elements :=
        List.filter_eq_self.mpr (fun p hp => bne_iff_ne.mpr (hall p hp))
      rw [this]

/-- C5 witness: user `u1` holds `e1` and `e3`, user `u2` holds `e2`;
clearing `u1` keeps exactly `u2`'s lock; clearing an unknown user fails. -/
theorem c5_clear_locks_by_user_spec_witness :
    (clear_locks_by_user
       { xml := "x", users := [("u1", "A"), ("u2", "B")],
         locked_elements := [("e1", "u1"), ("e2", "u2"), ("e3", "u1")] } "u1").1.users
      = [("u1", "A"), ("u2", "B")]
  ∧ clear_locks_by_user { xml := "x", users := [], locked_elements := [] } "ghost"
      = ({ xml := "x", users := [], locked_elements := [] },
         { success := false, locked_elements := none,
           error := some "User with this ID does not exist" }) :=
  ⟨((c5_clear_locks_by_user_spec
      { xml := "x", users := [("u1", "A"), ("u2", "B")],
        locked_elements := [("e1", "u1"), ("e2", "u2"), ("e3", "u1")] } "u1"
      (by decide)).2 (by decide)).2.2.2.1,
   (c5_clear_locks_by_user_spec { xml := "x", users := [], locked_elements := [] }
      "ghost" (by decide)).1 rfl⟩

/-- C6: `lock_element` fails with the already-locked error whenever the
element has any owner (the requesting user included), and otherwise inserts
the mapping; two lock calls on the same free element by two users leave the
first as the single owner, with the second failing. -/
theorem c6_lock_element_exclusive (st : StateManager) (u a b E o : String) :
    (dictGet st.locked_elements E = some o →
       lock_element st u E =
         (st, { success := false, locked_elements := none,
                error := some "Element is already locked" }))
  ∧ (dictGet st.locked_elements E = none →
       (lock_element st a E).2.success = true
     ∧ (lock_element (lock_element st a E).1 b E).2 =
         { success := false, locked_elements := none,
           error := some "Element is already locked" }
     ∧ dictGet (lock_element (lock_element st a E).1 b E).1.locked_elements E
         = some a
     ∧ (lock_element (lock_element st a E).1 b E).1.locked_elements.countP
         (fun p => p.1 == E) = 1) := by
  constructor
  · intro h; exact lock_element_taken u h
  · intro h
    have hget1 : dictGet (lock_element st a E).1.locked_elements E = some a := by
      rw [lock_element_free a h]
      show dictGet (st.locked_elements ++ [(E, a)]) E = some a
      rw [dictGet_append_of_none _ h]
      exact dictGet_singleton_self E a
    refine ⟨by rw [lock_element_free a h], ?_, ?_, ?_⟩
    · rw [lock_element_taken b hget1]
    · rw [lock_element_taken b hget1]; exact hget1
    · rw [lock_element_taken b hget1]
      rw [lock_element_free a h]
      show (st.locked_elements ++ [(E, a)]).countP (fun p => p.1 == E) = 1
      rw [List.countP_append, countP_key_zero_of_get_none h]
      simp [List.countP_cons]

/-- C6 witness: on an empty lock map, `alice` locks `E`, `bob` then fails,
and `E` has exactly one owner; locking an element already held (even by the
same user) fails. -/
theorem c6_lock_element_exclusive_witness :
    ((lock_element { xml := "x", users := [], locked_elements := [] } "alice" "E").2.success
       = true
     ∧ dictGet (lock_element
         (lock_element { xml := "x", users := [], locked_elements := [] } "alice" "E").1
         "bob" "E").1.locked_elements "E" = some "alice")
  ∧ lock_element { xml := "x", users := [], locked_elements := [("E", "alice")] }
      "alice" "E"
      = ({ xml := "x", users := [], locked_elements := [("E", "alice")] },
         { success := false, locked_elements := none,
           error := some "Element is already locked" }) :=
  ⟨⟨((c6_lock_element_exclusive { xml := "x", users := [], locked_elements := [] }
        "alice" "alice" "bob" "E" "o").2 rfl).1,
    ((c6_lock_element_exclusive { xml := "x", users := [], locked_elements := [] }
        "alice" "alice" "bob" "E" "o").2 rfl).2.2.1⟩,
   (c6_lock_element_exclusive
      { xml := "x", users := [], locked_elements := [("E", "alice")] }
      "alice" "alice" "bob" "E" "alice").1 rfl⟩

/-- C7 counterexample: a frame that is valid JSON but not a JSON object
(here the number `5`) has no `type` discriminator, yet the router does not
send an `error` reply to the sender — `raw_message.get("type")` raises an
uncaught `AttributeError` that escapes the validation function, so no error
message is sent and the frame is handled as a fatal connection error rather
than leaving the connection serviced. -/
theorem c7_nonobject_frame_uncaught :
    process_frame (fun _ => true) { xml := "x", users := [], locked_elements := [] }
      "ws1" "u1" (Frame.json (JVal.jnum 5)) =
    Except.error "AttributeError: parsed JSON value has no attribute get" := by
  rfl

/-- C7 (amended): for every inbound frame that is not valid JSON, or that
parses to a JSON object whose `type` is unknown or missing or whose fields
fail the variant's constraints, exactly one `error` message is sent, to the
sender only; the shared state is returned unchanged and no broadcast
occurs. -/
theorem c7_invalid_frame_error_reply (V : String → Bool) (st : StateManager)
    (ws uid : String) (f : Frame) (hf : validationRejects f = true) :
    ∃ m, process_frame V st ws uid f =
      Except.ok (st, [OutMsg.direct ws (errorPayload m)]) := by
  cases f with
  | notJson raw => exact ⟨"Invalid JSON format", rfl⟩
  | json v =>
    cases v with
    | jnull => simp [validationRejects] at hf
    | jbool b => simp [validationRejects] at hf
    | jnum n => simp [validationRejects] at hf
    | jstr s => simp [validationRejects] at hf
    | jarr xs => simp [validationRejects] at hf
    | jobj fields =>
      cases hty : jGet fields "type" with
      | none =>
        exact ⟨"Unknown message type: None",
          by simp [process_frame, handle_json_validation, hty]⟩
      | some tv =>
        cases tv with
        | jnull =>
          exact ⟨"Unknown message type: " ++ jvalToPyText JVal.jnull,
            by simp [process_frame, handle_json_validation, hty]⟩
        | jbool b =>
          exact ⟨"Unknown message type: " ++ jvalToPyText (JVal.jbool b),
            by simp [process_frame, handle_json_validation, hty]⟩
        | jnum n =>
          exact ⟨"Unknown message type: " ++ jvalToPyText (JVal.jnum n),
            by simp [process_frame, handle_json_validation, hty]⟩
        | jarr xs =>
          exact ⟨"Unknown message type: " ++ jvalToPyText (JVal.jarr xs),
            by simp [process_frame, handle_json_validation, hty]⟩
        | jobj fs =>
          exact ⟨"Unknown message type: " ++ jvalToPyText (JVal.jobj fs),
            by simp [process_frame, handle_json_validation, hty]⟩
        | jstr t =>
          by_cases h1 : (t == "xml_update") = true
          · cases hv : validateXmlUpdate fields with
            | some m => simp [validationRejects, hty, h1, hv] at hf
            | none =>
              exact ⟨"Validation error: <detail>",
                by simp [process_frame, handle_json_validation, hty, h1, hv]⟩
          · have h1b : (t == "xml_update") = false := by simpa using h1
            by_cases h2 : (t == "user_name_update") = true
            · cases hv : validateUserNameUpdate fields with
              | some m => simp [validationRejects, hty, h1b, h2, hv] at hf
              | none =>
                exact ⟨"Validation error: <detail>",
                  by simp [process_frame, handle_json_validation, hty, h1b, h2, hv]⟩
            · have h2b : (t == "user_name_update") = false := by simpa using h2
              by_cases h3 : (t == "element_select") = true
              · cases hv : validateElementSelect fields with
                | some m => simp [validationRejects, hty, h1b, h2b, h3, hv] at hf
                | none =>
                  exact ⟨"Validation error: <detail>",
                    by simp [process_frame, handle_json_validation, hty, h1b, h2b, h3, hv]⟩
              · have h3b : (t == "element_select") = false := by simpa using h3
                by_cases h4 : (t == "element_deselect") = true
                · cases hv : validateElementDeselect fields with
                  | some m => simp [validationRejects, hty, h1b, h2b, h3b, h4, hv] at hf
                  | none =>
                    exact ⟨"Validation error: <detail>",
                      by simp [process_frame, handle_json_validation, hty, h1b, h2b, h3b, h4, hv]⟩
                · have h4b : (t == "element_deselect") = false := by simpa using h4
                  exact ⟨"Unknown message type: " ++ t,
                    by simp [process_frame, handle_json_validation, hty, h1b, h2b, h3b, h4b]⟩

/-- C7 witness: the spec's scenario — an `xml_update` frame with no `xml`
field is rejected with a single direct error reply and no state change or
broadcast. -/
theorem c7_invalid_frame_error_reply_witness :
    validationRejects (Frame.json (JVal.jobj [("type", JVal.jstr "xml_update")])) = true
  ∧ ∃ m, process_frame (fun _ => true)
      { xml := "x", users := [], locked_elements := [] } "ws1" "u1"
      (Frame.json (JVal.jobj [("type", JVal.jstr "xml_update")])) =
      Except.ok ({ xml := "x", users := [], locked_elements := [] },
                 [OutMsg.direct "ws1" (errorPayload m)]) :=
  ⟨rfl,
   c7_invalid_frame_error_reply (fun _ => true)
     { xml := "x", users := [], locked_elements := [] } "ws1" "u1"
     (Frame.json (JVal.jobj [("type", JVal.jstr "xml_update")])) rfl⟩

/-- C8: during a broadcast, one connection's delivery failure does not block
or fail delivery to the others; a failing connection is evicted from the
registry with no retry; and the implicit-disconnect cleanup for the evicted
connection's user removes the user and releases every lock it owned. -/
theorem c8_broadcast_failure_isolation (F : String → Bool)
    (cm : ConnectionManager) (m : JVal) (excl : Option String) (c : String)
    (st : StateManager) (uid : String)
    (hc : c ∈ cm.active_connections) (hne : some c ≠ excl) :
    (F c = false → c ∈ (broadcast F cm m excl).delivered)
  ∧ (F c = true →
       c ∉ (broadcast F cm m excl).registry.active_connections
     ∧ dictGet (broadcast F cm m excl).registry.ws_uid_map c = none
     ∧ c ∉ (broadcast F cm m excl).delivered)
  ∧ (dictGet cm.ws_uid_map c = some uid → (dictGet st.users uid).isSome →
       (dictKeys st.locked_elements).Nodup →
       dictGet (implicit_disconnect_cleanup cm st c).2.1.users uid = none
     ∧ ∀ e, (e, uid) ∉ (implicit_disconnect_cleanup cm st c).2.1.locked_elements) := by
  have hrec : c ∈ cm.active_connections.filter (fun x => some x != excl) :=
    List.mem_filter.mpr ⟨hc, bne_iff_ne.mpr hne⟩
  refine ⟨?_, ?_, ?_⟩
  · intro hF
    show c ∈ (cm.active_connections.filter (fun x => some x != excl)).filter
      (fun x => !F x)
    exact List.mem_filter.mpr ⟨hrec, by simp [hF]⟩
  · intro hF
    have hfailed : c ∈ (cm.active_connections.filter (fun x => some x != excl)).filter
        (fun x => F x) :=
      List.mem_filter.mpr ⟨hrec, hF⟩
    have hcont : ((cm.active_connections.filter (fun x => some x != excl)).filter
        (fun x => F x)).contains c = true :=
      contains_eq_true_iff_mem.mpr hfailed
    refine ⟨?_, ?_, ?_⟩
    · intro hmem
      have ha : (broadcast F cm m excl).registry.active_connections
          = cm.active_connections.filter (fun x =>
              !((cm.active_connections.filter (fun x => some x != excl)).filter
                (fun x => F x)).contains x) :=
        foldl_disconnect_active _ cm
      rw [ha] at hmem
      have := (List.mem_filter.mp hmem).2
      rw [hcont] at this
      simp at this
    · have hb : (broadcast F cm m excl).registry.ws_uid_map
          = cm.ws_uid_map.filter (fun p =>
              !((cm.active_connections.filter (fun x => some x != excl)).filter
                (fun x => F x)).contains p.1) :=
        foldl_disconnect_map _ cm
      rw [hb]
      apply dictGet_none_of_not_mem_keys
      intro hk
      rcases List.mem_map.mp hk with ⟨q, hq, hq1⟩
      have := (List.mem_filter.mp hq).2
      rw [hq1, hcont] at this
      simp at this
    · intro hdel
      have := (List.mem_filter.mp hdel).2
      rw [hF] at this
      simp at this
  · intro hmap husr hN
    have hcl : (implicit_disconnect_cleanup cm st c).2.1
        = (handle_flush_user_data st uid).1 := by
      simp [implicit_disconnect_cleanup, disconnect, hmap]
    rw [hcl, handle_flush_user_data_state husr hN]
    refine ⟨dictGet_dictDel_self _ _, ?_⟩
    intro e hmem
    have := (List.mem_filter.mp hmem).2
    simp at this

/-- C8 witness: with two active connections and delivery to `w2` failing,
`w1` still receives the broadcast, `w2` is evicted, and the cleanup removes
`w2`'s user `u2` and its lock on `e1`. -/
theorem c8_broadcast_failure_isolation_witness :
    "w1" ∈ (broadcast (fun x => x == "w2")
      ⟨["w1", "w2"], [("w1", "u1"), ("w2", "u2")]⟩ JVal.jnull none).delivered
  ∧ "w2" ∉ (broadcast (fun x => x == "w2")
      ⟨["w1", "w2"], [("w1", "u1"), ("w2", "u2")]⟩ JVal.jnull none).registry.active_connections
  ∧ dictGet (implicit_disconnect_cleanup
      ⟨["w1", "w2"], [("w1", "u1"), ("w2", "u2")]⟩
      { xml := "x", users := [("u1", "A"), ("u2", "B")],
        locked_elements := [("e1", "u2")] } "w2").2.1.users "u2" = none :=
  ⟨(c8_broadcast_failure_isolation (fun x => x == "w2")
      ⟨["w1", "w2"], [("w1", "u1"), ("w2", "u2")]⟩ JVal.jnull none "w1"
      { xml := "x", users := [("u1", "A"), ("u2", "B")],
        locked_elements := [("e1", "u2")] } "u1"
      (by decide) (by decide)).1 rfl,
   ((c8_broadcast_failure_isolation (fun x => x == "w2")
      ⟨["w1", "w2"], [("w1", "u1"), ("w2", "u2")]⟩ JVal.jnull none "w2"
      { xml := "x", users := [("u1", "A"), ("u2", "B")],
        locked_elements := [("e1", "u2")] } "u2"
      (by decide) (by decide)).2.1 rfl).1,
   (((c8_broadcast_failure_isolation (fun x => x == "w2")
      ⟨["w1", "w2"], [("w1", "u1"), ("w2", "u2")]⟩ JVal.jnull none "w2"
      { xml := "x", users := [("u1", "A"), ("u2", "B")],
        locked_elements := [("e1", "u2")] } "u2"
      (by decide) (by decide)).2.2 rfl (by decide) (by decide))).1⟩

/-- C9: evicting a connection that is not (or no longer) registered is a
no-op success, and removing an already-removed user returns an unknown-user
failure response instead of raising. -/
theorem c9_disconnect_idempotent (cm : ConnectionManager) (st : StateManager)
    (ws id : String) :
    (ws ∉ cm.active_connections → dictGet cm.ws_uid_map ws = none →
       disconnect cm ws = (cm, { success := true, user_id := none, error := none }))
  ∧ (dictGet st.users id = none →
       remove_user st id =
         (st, { success := false, users := none,
                error := some "User with this ID does not exist" })) := by
  constructor
  · intro h1 h2
    have hact : cm.active_connections.filter (fun x => x != ws)
        = cm.active_connections :=
      List.filter_eq_self.mpr (fun x hx => bne_iff_ne.mpr (fun he => h1 (he ▸ hx)))
    have hmap : cm.ws_uid_map.filter (fun p => p.1 != ws) = cm.ws_uid_map :=
      List.filter_eq_self.mpr (fun p hp => bne_iff_ne.mpr
        (fun he => not_mem_keys_of_dictGet_none h2
          (he ▸ List.mem_map_of_mem Prod.fst hp)))
    simp [disconnect, dictDel, h2, hact, hmap]
  · intro h
    exact remove_user_unknown h

/-- C9 witness: evicting the unknown connection `w2` leaves the registry
unchanged; removing the unknown user `nobody` yields the failure response. -/
theorem c9_disconnect_idempotent_witness :
    disconnect ⟨["w1"], [("w1", "u1")]⟩ "w2"
      = (⟨["w1"], [("w1", "u1")]⟩, { success := true, user_id := none, error := none })
  ∧ remove_user { xml := "x", users := [], locked_elements := [] } "nobody"
      = ({ xml := "x", users := [], locked_elements := [] },
         { success := false, users := none,
           error := some "User with this ID does not exist" }) :=
  ⟨(c9_disconnect_idempotent ⟨["w1"], [("w1", "u1")]⟩
      { xml := "x", users := [], locked_elements := [] } "w2" "nobody").1
      (by decide) rfl,
   (c9_disconnect_idempotent ⟨["w1"], [("w1", "u1")]⟩
      { xml := "x", users := [], locked_elements := [] } "w2" "nobody").2 rfl⟩

/-- C10: every mutating store operation is atomic on error — whenever its
response has `success = false`, the state (xml, users, locked_elements) is
exactly as before the call — and, being a total function whose internal
raise is caught and converted to a response, it propagates no exception. -/
theorem c10_mutators_atomic_on_error (V : String → Bool) (st : StateManager)
    (s1 s2 : String) :
    ((update_xml V st s1).2.success = false → (update_xml V st s1).1 = st)
  ∧ ((add_user st s1 s2).2.success = false → (add_user st s1 s2).1 = st)
  ∧ ((remove_user st s1).2.success = false → (remove_user st s1).1 = st)
  ∧ ((update_user_name st s1 s2).2.success = false →
       (update_user_name st s1 s2).1 = st)
  ∧ ((lock_element st s1 s2).2.success = false → (lock_element st s1 s2).1 = st)
  ∧ ((unlock_element st s1 s2).2.success = false →
       (unlock_element st s1 s2).1 = st)
  ∧ ((clear_locks_by_user st s1).2.success = false →
       (clear_locks_by_user st s1).1 = st) := by
  refine ⟨?_, ?_, ?_, ?_, ?_, ?_, ?_⟩
  · cases hv : V s1 <;> simp [update_xml, update_xml_inner, hv]
  · cases hg : dictGet st.users s1 <;> simp [add_user, add_user_inner, hg]
  · cases hg : dictGet st.users s1 <;> simp [remove_user, remove_user_inner, hg]
  · cases hg : dictGet st.users s1 <;>
      simp [update_user_name, update_user_name_inner, hg]
  · cases hg : dictGet st.locked_elements s2 <;>
      simp [lock_element, lock_element_inner, hg]
  · cases hg : dictGet st.locked_elements s2 != some s1 <;>
      simp [unlock_element, unlock_element_inner, hg]
  · cases hg : dictGet st.users s1 <;>
      simp [clear_locks_by_user, clear_locks_by_user_inner, hg]

/-- C10 witness: a rejected `update_xml` reports failure and leaves the
state exactly as it was. -/
theorem c10_mutators_atomic_on_error_witness :
    (update_xml (fun _ => false) { xml := "x", users := [], locked_elements := [] }
       "y").2.success = false
  ∧ (update_xml (fun _ => false) { xml := "x", users := [], locked_elements := [] }
       "y").1 = { xml := "x", users := [], locked_elements := [] } :=
  ⟨rfl,
   (c10_mutators_atomic_on_error (fun _ => false)
      { xml := "x", users := [], locked_elements := [] } "y" "z").1 rfl⟩

end BpmnCo
